import Mathlib

/-
Verification of the ZWebGpu demo gallery against its design specification.

The development shallowly embeds the resource-lifecycle, lifecycle-controller,
frame-scheduler and device-acquisition logic of the repository:

* GpuHeap / GolState / RigidState: the GPU buffer allocation and destruction
  performed by GameOfLifeComponent.initializePipeline and
  RigidBodyPhysicsComponent.initializeBuffers / initializePipeline.
* GolBindGroupSpec and the step-indexed bind-group selection of the
  game-of-life compute and render passes (ping-pong discipline).
* SvcState / GpuEnv: the WebGPUService singleton (checkSupport, the adapter
  preference loop, device caching, createContext, the device.lost handler).
* DemoBaseState / DemoSystem: DemoBaseComponent (ngAfterViewInit, handleResize,
  the resolution of the awaited createContext, startRenderLoop, ngOnDestroy)
  together with the service, driven by an event trace.
* The render-loop body (delta-time and FPS bookkeeping).
* The depth-texture per-frame logic of RotatingCubeComponent and
  RigidBodyPhysicsComponent.
* The shader-pattern lookup table of ProceduralGraphicsComponent.

JavaScript numbers are modelled as rationals; GPU-side handles (buffers,
textures, devices, canvases) as natural-number ids issued by an allocator.
-/

/-- A GPU device seen as a buffer allocator.  `createBuffer` issues a fresh
id, `destroyBuffer` logs a destroy call and removes the buffer from the live
set.  The logs record every call so that allocate/destroy counting claims can
be stated. -/
structure GpuHeap where
  nextId : Nat
  live : List Nat
  allocLog : List Nat
  destroyLog : List Nat
deriving DecidableEq, Repr

def GpuHeap.empty : GpuHeap := ⟨0, [], [], []⟩

/-- device.createBuffer: allocate a fresh buffer id. -/
def GpuHeap.createBuffer (h : GpuHeap) : GpuHeap × Nat :=
  (⟨h.nextId + 1, h.live ++ [h.nextId], h.allocLog ++ [h.nextId], h.destroyLog⟩, h.nextId)

/-- buffer.destroy(): log the call and drop the buffer from the live set. -/
def GpuHeap.destroyBuffer (h : GpuHeap) (b : Nat) : GpuHeap :=
  { h with live := h.live.erase b, destroyLog := h.destroyLog ++ [b] }

/-- Buffer-holding state of GameOfLifeComponent: the two ping-pong cell
buffers and the uniform buffer. -/
structure GolState where
  heap : GpuHeap
  cellBuffers : List Nat
  uniformBuffer : Option Nat
deriving DecidableEq, Repr

def golNew : GolState := ⟨GpuHeap.empty, [], none⟩

/-- GameOfLifeComponent.initializePipeline, buffer lifecycle part, in source
order: first `this.cellBuffers.forEach(b => b.destroy())`, then the two new
cell storage buffers are created, then `this.uniformBuffer =
device.createBuffer(...)` is assigned WITHOUT destroying the previous uniform
buffer.  (The cell contents, shader modules, pipelines and bind groups do not
affect buffer allocation counts and are modelled separately.) -/
def golInitPipeline (s : GolState) : GolState :=
  let h1 := s.cellBuffers.foldl GpuHeap.destroyBuffer s.heap
  let r0 := h1.createBuffer
  let r1 := r0.1.createBuffer
  let ru := r1.1.createBuffer
  { heap := ru.1, cellBuffers := [r0.2, r1.2], uniformBuffer := some ru.2 }

/-- Buffer-holding state of RigidBodyPhysicsComponent. -/
structure RigidState where
  heap : GpuHeap
  positionBuffers : List Nat
  velocityBuffers : List Nat
  uniformBuffer : Option Nat
  indexBuffer : Option Nat
deriving DecidableEq, Repr

def rigidNew : RigidState := ⟨GpuHeap.empty, [], [], none, none⟩

/-- RigidBodyPhysicsComponent.initializeBuffers: destroys the old position and
velocity double buffers, then allocates two position and two velocity
buffers. -/
def rigidInitBuffers (s : RigidState) : RigidState :=
  let h1 := s.positionBuffers.foldl GpuHeap.destroyBuffer s.heap
  let h2 := s.velocityBuffers.foldl GpuHeap.destroyBuffer h1
  let p0 := h2.createBuffer
  let p1 := p0.1.createBuffer
  let v0 := p1.1.createBuffer
  let v1 := v0.1.createBuffer
  { s with heap := v1.1, positionBuffers := [p0.2, p1.2], velocityBuffers := [v0.2, v1.2] }

/-- RigidBodyPhysicsComponent.initializePipeline, buffer lifecycle part:
calls initializeBuffers, then allocates the uniform buffer, the sphere vertex
buffer, the index buffer and the mvp buffer; none of the previous instances of
those four buffers is destroyed first. -/
def rigidInitPipeline (s : RigidState) : RigidState :=
  let s1 := rigidInitBuffers s
  let ru := s1.heap.createBuffer
  let rv := ru.1.createBuffer
  let ri := rv.1.createBuffer
  let rm := ri.1.createBuffer
  { s1 with heap := rm.1, uniformBuffer := some ru.2, indexBuffer := some ri.2 }

/-- State of the game-of-life demo after the pipeline has been built on
context-ready and rebuilt once by a grid-size change
(onGridSizeChange -> initializePipeline).  Generation 0 consists of cell
buffers 0 and 1 and uniform buffer 2. -/
def golAfterGridChange : GolState := golInitPipeline (golInitPipeline golNew)

/-- State of the rigid-body demo after the pipeline has been built on
context-ready and rebuilt once by a body-count change.  Generation 0 consists
of position buffers 0,1, velocity buffers 2,3, uniform 4, vertex 5, index 6
and mvp 7. -/
def rigidAfterCountChange : RigidState := rigidInitPipeline (rigidInitPipeline rigidNew)

/-- A compute bind group of the game-of-life demo, by the indices into
`cellBuffers` bound at binding 0 (read) and binding 1 (write). -/
structure GolBindGroupSpec where
  readBuffer : Nat
  writeBuffer : Nat
deriving DecidableEq, Repr

/-- The two compute bind groups created in initializePipeline: group 0 reads
cellBuffers[0] and writes cellBuffers[1]; group 1 reads cellBuffers[1] and
writes cellBuffers[0]. -/
def golComputeBindGroups : List GolBindGroupSpec := [⟨0, 1⟩, ⟨1, 0⟩]

/-- The two render bind groups: group i reads cellBuffers[i]. -/
def golRenderBindGroups : List Nat := [0, 1]

/-- Compute bind group used by the simulation update of a frame whose `step`
field is `s` at the start of the frame: `computeBindGroups[this.step % 2]`. -/
def golComputeGroupAt (s : Nat) : GolBindGroupSpec :=
  golComputeBindGroups.getD (s % 2) ⟨0, 0⟩

/-- Cell-buffer index read by the render pass when the `step` field is `s` at
render time: `renderBindGroups[this.step % 2]`.  (After a simulation update
the step has already been incremented.) -/
def golRenderBufferAt (s : Nat) : Nat :=
  golRenderBindGroups.getD (s % 2) 0

/-- Claim C1: on a sizing-parameter change the rebuild is claimed to destroy
every previously allocated buffer exactly once, including the uniform buffer.
The code destroys the previous cell (and position/velocity) storage buffers
exactly once each, but reassigns the uniform buffer (and in the rigid-body
demo also the vertex, index and mvp buffers) without destroying the old one:
after one grid-size change the old uniform buffer (id 2) has zero destroy
calls and is still live, and the previous generation got 3 allocate calls but
only 2 destroy calls; the rigid-body demo leaks buffers 4, 5, 6, 7 the same
way. -/
theorem claim_C1_uniform_buffer_leak :
    golAfterGridChange.heap.destroyLog.count 0 = 1 ∧
    golAfterGridChange.heap.destroyLog.count 1 = 1 ∧
    golAfterGridChange.heap.destroyLog.count 2 = 0 ∧
    2 ∈ golAfterGridChange.heap.live ∧
    golAfterGridChange.heap.allocLog.length = 6 ∧
    golAfterGridChange.heap.destroyLog.length = 2 ∧
    rigidAfterCountChange.heap.destroyLog = [0, 1, 2, 3] ∧
    rigidAfterCountChange.heap.destroyLog.count 4 = 0 ∧
    4 ∈ rigidAfterCountChange.heap.live ∧
    5 ∈ rigidAfterCountChange.heap.live ∧
    6 ∈ rigidAfterCountChange.heap.live ∧
    7 ∈ rigidAfterCountChange.heap.live := by
  decide

/-- The cell buffers produced by one initializePipeline run are two distinct
fresh allocations (consecutive ids). -/
theorem golInitPipeline_cellBuffers (st : GolState) :
    (golInitPipeline st).cellBuffers =
      [(st.cellBuffers.foldl GpuHeap.destroyBuffer st.heap).nextId,
       (st.cellBuffers.foldl GpuHeap.destroyBuffer st.heap).nextId + 1] := by
  rfl

/-- Claim C2: the game-of-life compute pass at step `s` reads and writes two
distinct cell-buffer allocations, the write role alternates between
consecutive steps, and the render pass of the same frame (which runs after
`this.step++`, hence with step value `s + 1`) reads exactly the buffer the
compute pass just wrote. -/
theorem claim_C2_ping_pong (s : Nat) (st : GolState) :
    (golComputeGroupAt s).readBuffer ≠ (golComputeGroupAt s).writeBuffer ∧
    (golComputeGroupAt (s + 1)).writeBuffer ≠ (golComputeGroupAt s).writeBuffer ∧
    golRenderBufferAt (s + 1) = (golComputeGroupAt s).writeBuffer ∧
    (golInitPipeline st).cellBuffers.getD (golComputeGroupAt s).readBuffer 0 ≠
      (golInitPipeline st).cellBuffers.getD (golComputeGroupAt s).writeBuffer 0 := by
  have hcb := golInitPipeline_cellBuffers st
  rcases Nat.mod_two_eq_zero_or_one s with hp | hp
  · have hp1 : (s + 1) % 2 = 1 := by omega
    simp [golComputeGroupAt, golRenderBufferAt, golComputeBindGroups,
      golRenderBindGroups, hp, hp1, hcb]
  · have hp1 : (s + 1) % 2 = 0 := by omega
    simp [golComputeGroupAt, golRenderBufferAt, golComputeBindGroups,
      golRenderBindGroups, hp, hp1, hcb]

/-- Power-preference options tried by WebGPUService.initialize, in the order
of its `adapterOptions` array: high-performance, the empty (default) options
object, low-power. -/
inductive PowerPref where
  | highPerformance
  | defaultPref
  | lowPower
deriving DecidableEq, Repr

/-- The fixed adapter preference order of WebGPUService.initialize. -/
def adapterPrefOrder : List PowerPref :=
  [PowerPref.highPerformance, PowerPref.defaultPref, PowerPref.lowPower]

/-- Browser-side environment seen by the service: whether `navigator.gpu`
exists, which adapter (if any) each requestAdapter option set yields, whether
requestDevice succeeds and with which device id, and which canvases yield a
webgpu canvas context. -/
structure GpuEnv where
  gpuPresent : Bool
  adapterAvail : PowerPref → Option Nat
  deviceAvail : Option Nat
  canvasCtxOk : Nat → Bool
  preferredFormat : String

/-- Mutable state of the root-provided WebGPUService singleton (its `adapter`,
`_device`, `isSupported`, `isInitialized` and `error` fields). -/
structure SvcState where
  adapter : Option Nat
  device : Option Nat
  supported : Option Bool
  isInit : Bool
  errorMsg : Option String
deriving DecidableEq, Repr

def svcNew : SvcState := ⟨none, none, none, false, none⟩

/-- Error message set by checkSupport when `navigator.gpu` is absent. -/
def notSupportedMsg : String :=
  "WebGPU is not supported in this browser. Please use Chrome 113+ or Edge 113+."

/-- Error message set when all three adapter preference tiers fail. -/
def noAdapterMsg : String :=
  "Failed to get GPU adapter. Your GPU may not support WebGPU. Check chrome://gpu for details."

/-- Error message set by createContext when the canvas yields no webgpu
context. -/
def canvasCtxMsg : String :=
  "Failed to get WebGPU context from canvas."

/-- Error message set by the catch-all of the service init when the device
request throws. -/
def initFailureMsg : String :=
  "Failed to initialize WebGPU: Unknown error"

/-- WebGPUService.checkSupport: probes `gpu in navigator` once and caches the
answer in `isSupported`; on a negative probe also records the
capability-absent error message. -/
def checkSupport (env : GpuEnv) (s : SvcState) : SvcState × Bool :=
  match s.supported with
  | some b => (s, b)
  | none =>
    if env.gpuPresent then ({ s with supported := some true }, true)
    else ({ s with supported := some false, errorMsg := some notSupportedMsg }, false)

/-- The requestAdapter loop of WebGPUService: tries each option set in order
and stops at the first adapter obtained. -/
def requestAdapterLoop (env : GpuEnv) : List PowerPref → Option Nat
  | [] => none
  | p :: ps =>
    match env.adapterAvail p with
    | some a => some a
    | none => requestAdapterLoop env ps

/-- Service init (source name: WebGPUService&#46;initialize): returns the cached
device if present, otherwise checks support, runs the adapter preference
loop, requests a device from the chosen adapter and caches it.  Each failure
path records its own error message. -/
def svcInit (env : GpuEnv) (s : SvcState) : SvcState × Option Nat :=
  match s.device with
  | some d => (s, some d)
  | none =>
    let cs := checkSupport env s
    if cs.2 then
      match requestAdapterLoop env adapterPrefOrder with
      | none => ({ cs.1 with errorMsg := some noAdapterMsg }, none)
      | some a =>
        match env.deviceAvail with
        | some d => ({ cs.1 with adapter := some a, device := some d, isInit := true }, some d)
        | none => ({ cs.1 with adapter := some a, errorMsg := some initFailureMsg }, none)
    else (cs.1, none)

/-- The per-demo graphics context returned by WebGPUService.createContext:
device handle, canvas webgpu context handle, preferred pixel format and the
canvas itself.  The canvas context handle is identified with its canvas. -/
structure GfxContext where
  device : Nat
  context : Nat
  format : String
  canvas : Nat
deriving DecidableEq, Repr

/-- WebGPUService.createContext: runs the service init (which returns the
cached device on every call after the first), then obtains and configures the
canvas webgpu context, recording a distinct error message if the canvas
yields none. -/
def createContext (env : GpuEnv) (canvas : Nat) (s : SvcState) :
    SvcState × Option GfxContext :=
  let r := svcInit env s
  match r.2 with
  | none => (r.1, none)
  | some d =>
    if env.canvasCtxOk canvas then
      (r.1, some ⟨d, canvas, env.preferredFormat, canvas⟩)
    else ({ r.1 with errorMsg := some canvasCtxMsg }, none)

/-- The device.lost handler installed by the service init: records the loss
reason in the error signal, clears the cached device and the initialized
flag.  It does not touch anything else and requests nothing anew. -/
def handleDeviceLost (reason : String) (s : SvcState) : SvcState :=
  { s with errorMsg := some ("GPU device lost: " ++ reason),
           device := none, isInit := false }

/-- Claim C5: adapter acquisition tries high-performance, then default, then
low-power, and the first success wins; an absent API yields the
capability-absent message, an API with no adapter at any tier yields the
distinct no-adapter message, and a canvas that yields no webgpu context
yields the third distinct surface message. -/
theorem claim_C5_acquisition (env : GpuEnv) (c : Nat) :
    (∀ a, env.adapterAvail PowerPref.highPerformance = some a →
      requestAdapterLoop env adapterPrefOrder = some a) ∧
    (env.adapterAvail PowerPref.highPerformance = none →
      ∀ a, env.adapterAvail PowerPref.defaultPref = some a →
        requestAdapterLoop env adapterPrefOrder = some a) ∧
    (env.adapterAvail PowerPref.highPerformance = none →
      env.adapterAvail PowerPref.defaultPref = none →
      ∀ a, env.adapterAvail PowerPref.lowPower = some a →
        requestAdapterLoop env adapterPrefOrder = some a) ∧
    (env.gpuPresent = false →
      (svcInit env svcNew).1.errorMsg = some notSupportedMsg ∧
        (svcInit env svcNew).2 = none) ∧
    (env.gpuPresent = true → (∀ p, env.adapterAvail p = none) →
      (svcInit env svcNew).1.errorMsg = some noAdapterMsg ∧
        (svcInit env svcNew).2 = none) ∧
    (env.gpuPresent = true → env.canvasCtxOk c = false →
      ∀ a, env.adapterAvail PowerPref.highPerformance = some a →
        ∀ d, env.deviceAvail = some d →
          (createContext env c svcNew).1.errorMsg = some canvasCtxMsg ∧
            (createContext env c svcNew).2 = none) ∧
    (notSupportedMsg ≠ noAdapterMsg ∧ notSupportedMsg ≠ canvasCtxMsg ∧
      noAdapterMsg ≠ canvasCtxMsg) := by
  refine ⟨?_, ?_, ?_, ?_, ?_, ?_, ?_, ?_, ?_⟩
  · intro a ha
    simp [requestAdapterLoop, adapterPrefOrder, ha]
  · intro h1 a ha
    simp [requestAdapterLoop, adapterPrefOrder, h1, ha]
  · intro h1 h2 a ha
    simp [requestAdapterLoop, adapterPrefOrder, h1, h2, ha]
  · intro hgpu
    simp [svcInit, checkSupport, svcNew, hgpu]
  · intro hgpu hall
    have hloop : requestAdapterLoop env adapterPrefOrder = none := by
      simp [requestAdapterLoop, adapterPrefOrder, hall]
    simp [svcInit, checkSupport, svcNew, hgpu, hloop]
  · intro hgpu hc a ha d hd
    have hloop : requestAdapterLoop env adapterPrefOrder = some a := by
      simp [requestAdapterLoop, adapterPrefOrder, ha]
    simp [createContext, svcInit, checkSupport, svcNew, hgpu, hloop, hd, hc]
  · decide
  · decide
  · decide

/-- Environment with no WebGPU API at all. -/
def envNoGpu : GpuEnv := ⟨false, fun _ => none, none, fun _ => false, "bgra8unorm"⟩

/-- Environment where the API exists but every adapter tier fails. -/
def envNoAdapter : GpuEnv := ⟨true, fun _ => none, some 42, fun _ => true, "bgra8unorm"⟩

/-- Environment where acquisition succeeds but the canvas yields no webgpu
context. -/
def envNoCanvas : GpuEnv := ⟨true, fun _ => some 1, some 42, fun _ => false, "bgra8unorm"⟩

/-- Fully working environment: adapter 1 at every tier, device 42, every
canvas configurable. -/
def envFull : GpuEnv := ⟨true, fun _ => some 1, some 42, fun _ => true, "bgra8unorm"⟩

/-- Witness for claim C5 at concrete environments: the capability-absent,
no-adapter and surface-failure paths each produce their own message. -/
theorem claim_C5_acquisition_witness :
    ((svcInit envNoGpu svcNew).1.errorMsg = some notSupportedMsg ∧
      (svcInit envNoGpu svcNew).2 = none) ∧
    ((svcInit envNoAdapter svcNew).1.errorMsg = some noAdapterMsg ∧
      (svcInit envNoAdapter svcNew).2 = none) ∧
    ((createContext envNoCanvas 10 svcNew).1.errorMsg = some canvasCtxMsg ∧
      (createContext envNoCanvas 10 svcNew).2 = none) ∧
    requestAdapterLoop envFull adapterPrefOrder = some 1 :=
  ⟨(claim_C5_acquisition envNoGpu 0).2.2.2.1 rfl,
   (claim_C5_acquisition envNoAdapter 0).2.2.2.2.1 rfl (fun _ => rfl),
   (claim_C5_acquisition envNoCanvas 10).2.2.2.2.2.1 rfl rfl 1 rfl 42 rfl,
   (claim_C5_acquisition envFull 0).1 1 rfl⟩

/-- Contexts handed to two successively mounted demos (canvases 10 and 20) by
the root service singleton. -/
def ctxPairFirst : SvcState × Option GfxContext := createContext envFull 10 svcNew

def ctxPairSecond : SvcState × Option GfxContext :=
  createContext envFull 20 ctxPairFirst.1

/-- Claim C8 is false: the WebGPUService is a root-provided singleton that
caches `_device`, so the contexts created for two distinct mounted demos hold
the very same device handle (and pixel format); only the canvas and its
webgpu context differ.  Concretely: with canvases 10 and 20 both contexts
carry device 42. -/
theorem claim_C8_counterexample :
    ctxPairFirst.2.map GfxContext.device = some 42 ∧
    ctxPairSecond.2.map GfxContext.device = some 42 ∧
    ctxPairFirst.2.map GfxContext.canvas = some 10 ∧
    ctxPairSecond.2.map GfxContext.canvas = some 20 := by
  decide

/-- If the service init hands out a device, the resulting service state has
that device cached. -/
theorem svcInit_snd_device (env : GpuEnv) (s : SvcState) (d : Nat)
    (h : (svcInit env s).2 = some d) : (svcInit env s).1.device = some d := by
  rcases hs : s.device with _ | d0
  · cases hcs : (checkSupport env s).2 with
    | false => simp [svcInit, hs, hcs] at h
    | true =>
      rcases hloop : requestAdapterLoop env adapterPrefOrder with _ | a
      · simp [svcInit, hs, hcs, hloop] at h
      · rcases hdev : env.deviceAvail with _ | d1
        · simp [svcInit, hs, hcs, hloop, hdev] at h
        · simp [svcInit, hs, hcs, hloop, hdev] at h ⊢
          exact h
  · simp [svcInit, hs] at h ⊢
    exact h

/-- If the service already has a cached device, the init returns it and
leaves the state untouched. -/
theorem svcInit_cached (env : GpuEnv) (s : SvcState) (d : Nat)
    (h : s.device = some d) : svcInit env s = (s, some d) := by
  simp [svcInit, h]

/-- A successful createContext yields a context whose canvas and context
handles are the given canvas, whose format is the preferred format, and whose
device is cached in the resulting service state. -/
theorem createContext_success (env : GpuEnv) (c : Nat) (s s' : SvcState)
    (ctx : GfxContext) (h : createContext env c s = (s', some ctx)) :
    ctx.canvas = c ∧ ctx.context = c ∧ ctx.format = env.preferredFormat ∧
    s'.device = some ctx.device := by
  rcases hr : (svcInit env s).2 with _ | d
  · simp [createContext, hr] at h
  · rcases hc : env.canvasCtxOk c with _ | _
    · simp [createContext, hr, hc] at h
    · have hdev := svcInit_snd_device env s d hr
      simp [createContext, hr, hc] at h
      rcases h with ⟨h1, h2⟩
      subst h1
      subst h2
      exact ⟨rfl, rfl, rfl, hdev⟩

/-- Claim C8 amended: each demo's context owns its canvas and its canvas
webgpu context exclusively, but the device handle and the pixel format come
from the root WebGPUService singleton and are shared: a second successful
createContext returns a context holding the same cached device as the
first. -/
theorem claim_C8_amended (env : GpuEnv) (c1 c2 : Nat) (s0 s1 s2 : SvcState)
    (ctxA ctxB : GfxContext)
    (h1 : createContext env c1 s0 = (s1, some ctxA))
    (h2 : createContext env c2 s1 = (s2, some ctxB)) :
    ctxA.canvas = c1 ∧ ctxB.canvas = c2 ∧
    ctxA.context = c1 ∧ ctxB.context = c2 ∧
    ctxA.device = ctxB.device ∧ ctxA.format = ctxB.format := by
  obtain ⟨ha1, ha2, ha3, hdev1⟩ := createContext_success env c1 s0 s1 ctxA h1
  obtain ⟨hb1, hb2, hb3, _⟩ := createContext_success env c2 s1 s2 ctxB h2
  have hcached := svcInit_cached env s1 ctxA.device hdev1
  have hBdev : ctxB.device = ctxA.device := by
    simp [createContext, hcached] at h2
    rcases hc : env.canvasCtxOk c2 with _ | _
    · simp [hc] at h2
    · simp [hc] at h2
      rcases h2 with ⟨-, h2b⟩
      subst h2b
      rfl
  exact ⟨ha1, hb1, ha2, hb2, hBdev.symm, ha3.trans hb3.symm⟩

/-- Witness for the amended claim C8 at the fully working environment: the
two concrete contexts for canvases 10 and 20 share device and format while
their canvases and contexts differ. -/
theorem claim_C8_amended_witness :
    ((⟨42, 10, "bgra8unorm", 10⟩ : GfxContext).canvas = 10 ∧
     (⟨42, 20, "bgra8unorm", 20⟩ : GfxContext).canvas = 20 ∧
     (⟨42, 10, "bgra8unorm", 10⟩ : GfxContext).context = 10 ∧
     (⟨42, 20, "bgra8unorm", 20⟩ : GfxContext).context = 20 ∧
     (⟨42, 10, "bgra8unorm", 10⟩ : GfxContext).device =
       (⟨42, 20, "bgra8unorm", 20⟩ : GfxContext).device ∧
     (⟨42, 10, "bgra8unorm", 10⟩ : GfxContext).format =
       (⟨42, 20, "bgra8unorm", 20⟩ : GfxContext).format) :=
  claim_C8_amended envFull 10 20 svcNew ctxPairFirst.1 ctxPairSecond.1
    ⟨42, 10, "bgra8unorm", 10⟩ ⟨42, 20, "bgra8unorm", 20⟩ (by decide) (by decide)

/-- State of a mounted DemoBaseComponent: the loading/error/fps signals, the
frame-scheduler bookkeeping (`animationFrameId`, `lastTime`, `frameCount`,
`fpsUpdateTime`), the resize-observer subscription, the stored context flag,
the number of contextReady emissions, the canvas backing-store size, a fresh
id counter for requestAnimationFrame handles, the list of currently scheduled
(not yet cancelled) frame callbacks, and whether ngOnDestroy has run. -/
structure DemoBaseState where
  loading : Bool
  errorMsg : Option String
  fps : Nat
  animationFrameId : Option Nat
  lastTime : ℚ
  frameCount : Nat
  fpsUpdateTime : ℚ
  resizeObserverActive : Bool
  hasContext : Bool
  contextReadyCount : Nat
  canvasW : ℚ
  canvasH : ℚ
  nextFrameId : Nat
  pendingFrames : List Nat
  destroyed : Bool
deriving DecidableEq, Repr

/-- Field initial values of DemoBaseComponent. -/
def demoBaseNew : DemoBaseState :=
  { loading := true, errorMsg := none, fps := 0, animationFrameId := none,
    lastTime := 0, frameCount := 0, fpsUpdateTime := 0,
    resizeObserverActive := false, hasContext := false, contextReadyCount := 0,
    canvasW := 0, canvasH := 0, nextFrameId := 0, pendingFrames := [],
    destroyed := false }

/-- DemoBaseComponent.handleResize: sets the canvas backing-store size to the
container CSS size times the device pixel ratio (`window.devicePixelRatio ||
1`, so a falsy ratio falls back to 1). -/
def handleResize (s : DemoBaseState) (cssW cssH dpr : ℚ) : DemoBaseState :=
  let d := if dpr = 0 then 1 else dpr
  { s with canvasW := cssW * d, canvasH := cssH * d }

/-- Externally observable events driving a mounted demo: view init (with the
container CSS size and pixel ratio), a resize-observer callback, the
resolution of the awaited createContext (succeeded or not), a device-loss
notification, and ngOnDestroy. -/
inductive DemoEvent where
  | viewInit (cssW cssH dpr : ℚ)
  | resizeFired (cssW cssH dpr : ℚ)
  | ctxResolved (ok : Bool)
  | deviceLost (reason : String)
  | destroy
deriving DecidableEq, Repr

/-- A demo page together with the service singleton. -/
structure DemoSystem where
  base : DemoBaseState
  service : SvcState
deriving DecidableEq, Repr

def demoSystemNew : DemoSystem := ⟨demoBaseNew, svcNew⟩

/-- One event step of the mounted demo, transcribing the source:

* viewInit — ngAfterViewInit / the synchronous prefix of initializeWebGPU:
  subscribes the ResizeObserver, performs the initial handleResize, then
  suspends on `await this.webgpu.createContext(canvas)`.
* resizeFired — the observer callback runs handleResize only while the
  subscription is connected.
* ctxResolved — the continuation after the await.  The source has no
  destroyed-guard, so it runs unconditionally: on failure it sets the error
  signal (service error or the fallback text) and clears loading; on success
  it stores the context, clears loading, emits contextReady, after which the
  concrete demo page builds its pipeline and calls startRenderLoop, which
  schedules the first requestAnimationFrame callback.
* deviceLost — the device.lost continuation updates the service only.
* destroy — ngOnDestroy cancels the current animation frame (if any) and
  disconnects the ResizeObserver; nothing else. -/
def demoStep (sys : DemoSystem) : DemoEvent → DemoSystem
  | DemoEvent.viewInit w h dpr =>
    let b := { sys.base with resizeObserverActive := true }
    { sys with base := handleResize b w h dpr }
  | DemoEvent.resizeFired w h dpr =>
    if sys.base.resizeObserverActive then
      { sys with base := handleResize sys.base w h dpr }
    else sys
  | DemoEvent.ctxResolved ok =>
    if ok then
      let b := { sys.base with
        hasContext := true, loading := false,
        contextReadyCount := sys.base.contextReadyCount + 1 }
      { sys with base :=
          { b with animationFrameId := some b.nextFrameId,
                   pendingFrames := b.pendingFrames ++ [b.nextFrameId],
                   nextFrameId := b.nextFrameId + 1 } }
    else
      { sys with base :=
          { sys.base with
            errorMsg := some (sys.service.errorMsg.getD "Failed to initialize WebGPU"),
            loading := false } }
  | DemoEvent.deviceLost r =>
    { sys with service := handleDeviceLost r sys.service }
  | DemoEvent.destroy =>
    let b := match sys.base.animationFrameId with
      | some i => { sys.base with pendingFrames := sys.base.pendingFrames.erase i }
      | none => sys.base
    { sys with base := { b with resizeObserverActive := false, destroyed := true } }

/-- Run a demo from mount through a sequence of events. -/
def runSystem (es : List DemoEvent) : DemoSystem :=
  es.foldl demoStep demoSystemNew

/-- One invocation of the render-loop callback installed by startRenderLoop,
at timestamp `t`: computes `deltaTime = time - this.lastTime`, stores the
timestamp, advances the rolling FPS counter (published once a second), passes
`(time, deltaTime)` to the demo frame callback (returned here as the second
component) and schedules the next frame. -/
def renderLoopStep (s : DemoBaseState) (t : ℚ) : DemoBaseState × ℚ :=
  let deltaTime := t - s.lastTime
  let s1 := { s with lastTime := t, frameCount := s.frameCount + 1 }
  let s2 :=
    if t - s1.fpsUpdateTime ≥ 1000 then
      { s1 with fps := s1.frameCount, frameCount := 0, fpsUpdateTime := t }
    else s1
  ({ s2 with animationFrameId := some s2.nextFrameId,
             pendingFrames := s2.pendingFrames ++ [s2.nextFrameId],
             nextFrameId := s2.nextFrameId + 1 }, deltaTime)

/-- The trace refuting claim C3: the demo mounts, is destroyed while the
context acquisition is still in flight, and only then does the acquisition
resolve successfully. -/
def tornDownTrace : List DemoEvent :=
  [DemoEvent.viewInit 800 600 1, DemoEvent.destroy, DemoEvent.ctxResolved true]

/-- Claim C3: ngOnDestroy has no in-flight guard, so an acquisition that
resolves after unmount is not a no-op: it clears the loading state, emits
contextReady, and the demo page starts a render loop, leaving a scheduled
frame callback (id 0) on the torn-down demo.  The immediate cleanup performed
by ngOnDestroy itself (observer disconnected) does happen. -/
theorem claim_C3_inflight_not_noop :
    (runSystem tornDownTrace).base.destroyed = true ∧
    (runSystem tornDownTrace).base.resizeObserverActive = false ∧
    (runSystem tornDownTrace).base.contextReadyCount = 1 ∧
    (runSystem tornDownTrace).base.loading = false ∧
    (runSystem tornDownTrace).base.hasContext = true ∧
    (runSystem tornDownTrace).base.pendingFrames = [0] := by
  decide

/-- A demo mounted and rendering: context resolved, render loop scheduled. -/
def readySys : DemoSystem :=
  runSystem [DemoEvent.viewInit 800 600 1, DemoEvent.ctxResolved true]

/-- The ready demo after a device-loss notification. -/
def lostSys : DemoSystem :=
  demoStep readySys (DemoEvent.deviceLost "Device was destroyed")

/-- Claim C4 is false on its last conjunct: after a device loss in the Ready
state the service does surface the loss reason and leaves the ready state,
but nothing stops the frame scheduler — the scheduled frame callback is still
pending afterwards. -/
theorem claim_C4_counterexample :
    readySys.base.loading = false ∧
    readySys.base.hasContext = true ∧
    readySys.base.pendingFrames = [0] ∧
    lostSys.service.errorMsg = some "GPU device lost: Device was destroyed" ∧
    lostSys.service.device = none ∧
    lostSys.base.pendingFrames = [0] := by
  decide

/-- Claim C4 amended: a device-loss event surfaces an error message that is
the loss reason prefixed by a fixed text, clears the cached device and the
initialized flag, touches nothing else in the service (in particular it
attempts no reacquisition: the adapter and supported fields are unchanged and
the device stays cleared), and leaves the demo component — including its
scheduled frame callbacks — completely untouched: the frame scheduler does
NOT stop. -/
theorem claim_C4_amended (sys : DemoSystem) (r : String)
    (h : sys.base.pendingFrames ≠ []) :
    (demoStep sys (DemoEvent.deviceLost r)).service.errorMsg =
      some ("GPU device lost: " ++ r) ∧
    (demoStep sys (DemoEvent.deviceLost r)).service.device = none ∧
    (demoStep sys (DemoEvent.deviceLost r)).service.isInit = false ∧
    (demoStep sys (DemoEvent.deviceLost r)).service.adapter = sys.service.adapter ∧
    (demoStep sys (DemoEvent.deviceLost r)).service.supported = sys.service.supported ∧
    (demoStep sys (DemoEvent.deviceLost r)).base = sys.base ∧
    (demoStep sys (DemoEvent.deviceLost r)).base.pendingFrames ≠ [] := by
  refine ⟨rfl, rfl, rfl, rfl, rfl, rfl, ?_⟩
  simpa [demoStep] using h

/-- Witness for the amended claim C4 at the concrete ready demo. -/
theorem claim_C4_amended_witness :
    lostSys.service.errorMsg = some ("GPU device lost: " ++ "Device was destroyed") ∧
    lostSys.service.device = none ∧
    lostSys.service.isInit = false ∧
    lostSys.service.adapter = readySys.service.adapter ∧
    lostSys.service.supported = readySys.service.supported ∧
    lostSys.base = readySys.base ∧
    lostSys.base.pendingFrames ≠ [] :=
  claim_C4_amended readySys "Device was destroyed" (by decide)

/-- Claim C7: every size computation sets the canvas backing store to the
container CSS size times the device pixel ratio, and the initial size
computation performed during mount happens while no frame callback has been
scheduled yet, so the first frame is drawn at the freshly computed size. -/
theorem claim_C7_mount_resize (w h dpr : ℚ) (s : DemoBaseState) (hdpr : dpr ≠ 0) :
    (handleResize s w h dpr).canvasW = w * dpr ∧
    (handleResize s w h dpr).canvasH = h * dpr ∧
    (runSystem [DemoEvent.viewInit w h dpr]).base.canvasW = w * dpr ∧
    (runSystem [DemoEvent.viewInit w h dpr]).base.canvasH = h * dpr ∧
    (runSystem [DemoEvent.viewInit w h dpr]).base.pendingFrames = [] ∧
    (runSystem [DemoEvent.viewInit w h dpr]).base.resizeObserverActive = true := by
  refine ⟨?_, ?_, ?_, ?_, rfl, rfl⟩ <;>
    simp [handleResize, runSystem, demoStep, demoSystemNew, hdpr]

/-- Witness for claim C7: a container of 800 by 600 CSS pixels at device
pixel ratio 2 yields a 1600 by 1200 backing surface, computed at mount before
any frame is scheduled. -/
theorem claim_C7_mount_resize_witness :
    (runSystem [DemoEvent.viewInit 800 600 2]).base.canvasW = 1600 ∧
    (runSystem [DemoEvent.viewInit 800 600 2]).base.canvasH = 1200 ∧
    (runSystem [DemoEvent.viewInit 800 600 2]).base.pendingFrames = [] := by
  have h := claim_C7_mount_resize 800 600 2 demoBaseNew (by norm_num)
  refine ⟨?_, ?_, h.2.2.2.2.1⟩
  · rw [h.2.2.1]; norm_num
  · rw [h.2.2.2.1]; norm_num

/-- No lifecycle event writes the `lastTime` field: only the render-loop
callback itself does. -/
theorem demoStep_lastTime (sys : DemoSystem) (e : DemoEvent) :
    (demoStep sys e).base.lastTime = sys.base.lastTime := by
  cases e with
  | viewInit w h dpr => rfl
  | resizeFired w h dpr =>
    by_cases hobs : sys.base.resizeObserverActive <;> simp [demoStep, hobs, handleResize]
  | ctxResolved ok => cases ok <;> rfl
  | deviceLost r => rfl
  | destroy => cases hafi : sys.base.animationFrameId <;> simp [demoStep, hafi]

/-- lastTime stays at its initial value 0 through any sequence of lifecycle
events preceding the first frame. -/
theorem runSystem_lastTime (es : List DemoEvent) :
    (runSystem es).base.lastTime = 0 := by
  have key : ∀ (l : List DemoEvent) (sys : DemoSystem),
      (l.foldl demoStep sys).base.lastTime = sys.base.lastTime := by
    intro l
    induction l with
    | nil => intro sys; rfl
    | cons e t ih =>
      intro sys
      rw [List.foldl_cons, ih, demoStep_lastTime]
  exact key es demoSystemNew

/-- Claim C10: `lastTime` is initialized to 0 and never written before the
first render-loop invocation, so the deltaTime handed to the demo's frame
callback on the first invocation equals the absolute timestamp itself
(time - 0), not a real frame interval. -/
theorem claim_C10_first_delta (t : ℚ) (es : List DemoEvent) :
    demoBaseNew.lastTime = 0 ∧
    (runSystem es).base.lastTime = 0 ∧
    (renderLoopStep (runSystem es).base t).2 = t - 0 ∧
    (renderLoopStep (runSystem es).base t).2 = t := by
  have h0 := runSystem_lastTime es
  refine ⟨rfl, h0, ?_, ?_⟩ <;> simp [renderLoopStep, h0]

/-- Depth-attachment bookkeeping of a demo: the stored depth texture (id and
dimensions) if any, a fresh-id counter, and logs of texture create and
destroy calls. -/
structure DepthState where
  nextTexId : Nat
  depthTexture : Option (Nat × ℚ × ℚ)
  texAllocs : List (Nat × ℚ × ℚ)
  texDestroys : List Nat
deriving DecidableEq, Repr

def depthNew : DepthState := ⟨0, none, [], []⟩

/-- Per-frame depth logic of RotatingCubeComponent.startRendering: recreate
the depth texture only if there is none yet or its dimensions differ from the
current canvas size, destroying the old texture first
(`this.depthTexture?.destroy()`). -/
def cubeDepthStep (st : DepthState) (w h : ℚ) : DepthState :=
  match st.depthTexture with
  | some (tid, tw, th) =>
    if tw = w ∧ th = h then st
    else
      { nextTexId := st.nextTexId + 1,
        depthTexture := some (st.nextTexId, w, h),
        texAllocs := st.texAllocs ++ [(st.nextTexId, w, h)],
        texDestroys := st.texDestroys ++ [tid] }
  | none =>
    { nextTexId := st.nextTexId + 1,
      depthTexture := some (st.nextTexId, w, h),
      texAllocs := st.texAllocs ++ [(st.nextTexId, w, h)],
      texDestroys := st.texDestroys }

/-- Per-frame depth logic of RigidBodyPhysicsComponent.startRendering: a new
depth texture is created unconditionally every frame into a local constant;
no previous texture is destroyed and none is stored for reuse. -/
def rigidDepthStep (st : DepthState) (w h : ℚ) : DepthState :=
  { st with nextTexId := st.nextTexId + 1,
            texAllocs := st.texAllocs ++ [(st.nextTexId, w, h)] }

/-- Two consecutive rigid-body frames at an unchanged 800 by 600 canvas. -/
def rigidTwoFrames : DepthState :=
  rigidDepthStep (rigidDepthStep depthNew 800 600) 800 600

/-- Claim C6 is false for the rigid-body demo: across two frames whose
dimensions do not change it creates two depth textures (one per frame,
unconditionally) and destroys none, while the claim requires recreation only
on dimension mismatch with the old texture destroyed first. -/
theorem claim_C6_counterexample :
    rigidTwoFrames.texAllocs = [(0, 800, 600), (1, 800, 600)] ∧
    rigidTwoFrames.texDestroys = [] := by
  decide

/-- Claim C6 amended: the rotating-cube demo (and the instanced-rendering
demo, which has the identical guard) recreates its depth texture lazily —
a frame whose canvas dimensions match the stored texture leaves the state
completely unchanged, and a mismatching frame destroys exactly the old
texture and allocates exactly one new one of the current size — but the
rigid-body-physics demo creates one fresh depth texture on every frame and
never destroys any. -/
theorem claim_C6_amended (st : DepthState) (tid : Nat) (tw th w h : ℚ) :
    (st.depthTexture = some (tid, w, h) → cubeDepthStep st w h = st) ∧
    (st.depthTexture = some (tid, tw, th) → ¬(tw = w ∧ th = h) →
      (cubeDepthStep st w h).texDestroys = st.texDestroys ++ [tid] ∧
      (cubeDepthStep st w h).texAllocs = st.texAllocs ++ [(st.nextTexId, w, h)] ∧
      (cubeDepthStep st w h).depthTexture = some (st.nextTexId, w, h)) ∧
    ((rigidDepthStep st w h).texAllocs = st.texAllocs ++ [(st.nextTexId, w, h)] ∧
      (rigidDepthStep st w h).texDestroys = st.texDestroys) := by
  refine ⟨?_, ?_, rfl, rfl⟩
  · intro hmatch
    simp [cubeDepthStep, hmatch]
  · intro hmatch hne
    simp [cubeDepthStep, hmatch, hne]

/-- A stored 640 by 480 depth texture for the witness. -/
def depthSmall : DepthState := ⟨5, some (3, 640, 480), [(3, 640, 480)], []⟩

/-- Witness for the amended claim C6: a matching frame leaves the cube depth
state unchanged; a mismatching frame destroys texture 3 and allocates
texture 5; a rigid-body frame allocates and destroys per the amended
claim. -/
theorem claim_C6_amended_witness :
    (cubeDepthStep depthSmall 640 480 = depthSmall) ∧
    ((cubeDepthStep depthSmall 800 600).texDestroys = [3] ++ [3] ∨
      (cubeDepthStep depthSmall 800 600).texDestroys = depthSmall.texDestroys ++ [3]) ∧
    (rigidDepthStep depthSmall 800 600).texAllocs = depthSmall.texAllocs ++ [(5, 800, 600)] :=
  ⟨(claim_C6_amended depthSmall 3 640 480 640 480).1 rfl,
   Or.inr ((claim_C6_amended depthSmall 3 640 480 800 600).2.1 rfl (by norm_num)).1,
   (claim_C6_amended depthSmall 3 640 480 800 600).2.2.1⟩

/-- Shader text of the perlin pattern variant of ProceduralGraphicsComponent.
The WGSL bodies are opaque text to the host (it performs no parsing or
validation of them, see the spec), so each variant is represented by a
distinct abbreviated stand-in string; only identity and distinctness of the
entries matter to the lookup semantics under verification. -/
def perlinPatternCode : String := "fn pattern - perlin gradient noise octaves"

/-- Shader text of the worley pattern variant (stand-in, see
perlinPatternCode). -/
def worleyPatternCode : String := "fn pattern - worley cell noise min distance"

/-- Shader text of the fbm pattern variant (stand-in). -/
def fbmPatternCode : String := "fn pattern - fractal brownian motion layers"

/-- Shader text of the voronoi pattern variant (stand-in). -/
def voronoiPatternCode : String := "fn pattern - voronoi region partition"

/-- Shader text of the marble pattern variant (stand-in). -/
def marblePatternCode : String := "fn pattern - marble distorted sine"

/-- Shader text of the wood pattern variant (stand-in). -/
def woodPatternCode : String := "fn pattern - wood rings and grain"

/-- The `code` lookup table of ProceduralGraphicsComponent.getPatternCode,
keyed by pattern id. -/
def patternCodeTable : List (String × String) :=
  [("perlin", perlinPatternCode), ("worley", worleyPatternCode),
   ("fbm", fbmPatternCode), ("voronoi", voronoiPatternCode),
   ("marble", marblePatternCode), ("wood", woodPatternCode)]

/-- ProceduralGraphicsComponent.getPatternCode: returns
`code[this.patternType] || code['perlin']` — the entry for the requested
pattern if present and truthy (nonempty), otherwise the perlin entry. -/
def getPatternCode (patternType : String) : String :=
  match patternCodeTable.lookup patternType with
  | some c =>
    if c = "" then (patternCodeTable.lookup "perlin").getD "" else c
  | none => (patternCodeTable.lookup "perlin").getD ""

/-- Claim C9: any pattern key absent from the lookup table silently falls
back to the perlin variant: the generated shader code equals the default
(perlin) variant's code, which is also what the lookup yields for the
"perlin" key itself. -/
theorem claim_C9_fallback (key : String)
    (h : patternCodeTable.lookup key = none) :
    getPatternCode key = perlinPatternCode ∧
    getPatternCode key = getPatternCode "perlin" := by
  have h1 : getPatternCode key = perlinPatternCode := by
    unfold getPatternCode
    rw [h]
    decide
  have h2 : getPatternCode "perlin" = perlinPatternCode := by decide
  exact ⟨h1, h1.trans h2.symm⟩

/-- Witness for claim C9: the unknown key "plasma" is not in the table and
yields the perlin code. -/
theorem claim_C9_fallback_witness :
    patternCodeTable.lookup "plasma" = none ∧
    getPatternCode "plasma" = perlinPatternCode :=
  ⟨by decide, (claim_C9_fallback "plasma" (by decide)).1⟩
